import Mathlib

/-!
Verification development for a role-based inventory management API.

The embedding models the backend of the Inventory-Management-System repository:
the data model (`models.py`), the request schemas (`schemas.py`), and the
router handlers (`auth_router.py`, `inventory_router.py`), with the database
session modelled as explicit state passing and the transaction boundary of
`database.get_db` (commit on success, rollback on any exception) made explicit.
Persistence calls (flush / commit) may fail; failures are injected through an
oracle argument, and an exception always rolls the visible state back to the
state at the start of the request.
-/

namespace Inventory

/-- Role enumeration from `models.UserRole`. -/
inductive UserRole where
  | admin : UserRole
  | manager : UserRole
  | viewer : UserRole
deriving DecidableEq, Repr

/-- Row of the `users` table (`models.User`). -/
structure User where
  id : Nat
  email : String
  username : String
  hashed_password : String
  full_name : Option String
  role : UserRole
  is_active : Bool
deriving DecidableEq, Repr

/-- Row of the `inventory_items` table (`models.InventoryItem`).  Timestamps
are modelled as natural numbers; `unit_price` (a SQL `Float`) is modelled as a
rational number. -/
structure InventoryItem where
  id : Nat
  name : String
  sku : String
  description : Option String
  quantity : Int
  unit_price : ℚ
  category : Option String
  location : Option String
  created_by : Nat
  created_at : Nat
  updated_at : Option Nat
deriving DecidableEq, Repr

/-- Structured model of a JSON value, used for the serialized `changes`
payload of an audit row (`json.dumps` is injective on the dictionaries the
code builds, so the payload is modelled by its structure). -/
inductive Json where
  | jNull : Json
  | jStr : String → Json
  | jInt : Int → Json
  | jRat : ℚ → Json
  | jObj : List (String × Json) → Json

/-- Row of the `audit_logs` table (`models.AuditLog`). -/
structure AuditLog where
  id : Nat
  action : String
  item_id : Option Nat
  user_id : Nat
  changes : Option Json
  timestamp : Nat

/-- Request body of `POST /inventory` (`schemas.InventoryItemCreate`), after
pydantic validation. -/
structure InventoryItemCreate where
  name : String
  sku : String
  description : Option String
  quantity : Int
  unit_price : ℚ
  category : Option String
  location : Option String
deriving DecidableEq, Repr

/-- Request body of `PUT /inventory/{id}` (`schemas.InventoryItemUpdate`).
Every pydantic field is `Optional` with no default required, and
`model_dump(exclude_unset=True)` distinguishes an absent field from a field
explicitly supplied as `null`; hence each field is `Option (Option τ)`: the
outer layer is presence in the request, the inner layer is the value or
`null`. -/
structure InventoryItemUpdate where
  name : Option (Option String)
  sku : Option (Option String)
  description : Option (Option String)
  quantity : Option (Option Int)
  unit_price : Option (Option ℚ)
  category : Option (Option String)
  location : Option (Option String)
deriving DecidableEq, Repr

/-- Dynamic value of an item attribute, as seen by `getattr` in the update
loop of `update_inventory_item`. -/
inductive Val where
  | vStr : String → Val
  | vInt : Int → Val
  | vRat : ℚ → Val
  | vNone : Val
deriving DecidableEq, Repr

/-- JSON rendering of a dynamic value. -/
def Val.toJson : Val → Json
  | .vStr s => .jStr s
  | .vInt n => .jInt n
  | .vRat q => .jRat q
  | .vNone => .jNull

/-- The seven updatable fields of an inventory item, in pydantic declaration
order (the iteration order of `item_update.model_dump(exclude_unset=True)`). -/
inductive FieldName where
  | fname : FieldName
  | fsku : FieldName
  | fdescription : FieldName
  | fquantity : FieldName
  | funit_price : FieldName
  | fcategory : FieldName
  | flocation : FieldName
deriving DecidableEq, Repr

/-- All fields in declaration order. -/
def FieldName.all : List FieldName :=
  [.fname, .fsku, .fdescription, .fquantity, .funit_price, .fcategory, .flocation]

/-- The string key of a field, as it appears in the `changes` dictionary. -/
def FieldName.key : FieldName → String
  | .fname => "name"
  | .fsku => "sku"
  | .fdescription => "description"
  | .fquantity => "quantity"
  | .funit_price => "unit_price"
  | .fcategory => "category"
  | .flocation => "location"

/-- Current value of a field of an item (`getattr(db_item, field)`). -/
def getVal (it : InventoryItem) : FieldName → Val
  | .fname => .vStr it.name
  | .fsku => .vStr it.sku
  | .fdescription => match it.description with | none => .vNone | some s => .vStr s
  | .fquantity => .vInt it.quantity
  | .funit_price => .vRat it.unit_price
  | .fcategory => match it.category with | none => .vNone | some s => .vStr s
  | .flocation => match it.location with | none => .vNone | some s => .vStr s

/-- Value of a field in the update request: `none` when the field is unset,
`some none` when supplied as `null`, `some (some v)` when supplied as `v`. -/
def suppliedVal (u : InventoryItemUpdate) : FieldName → Option (Option Val)
  | .fname => u.name.map (Option.map Val.vStr)
  | .fsku => u.sku.map (Option.map Val.vStr)
  | .fdescription => u.description.map (Option.map Val.vStr)
  | .fquantity => u.quantity.map (Option.map Val.vInt)
  | .funit_price => u.unit_price.map (Option.map Val.vRat)
  | .fcategory => u.category.map (Option.map Val.vStr)
  | .flocation => u.location.map (Option.map Val.vStr)

/-- Assign a field of an item (`setattr(db_item, field, value)`); values of
the wrong dynamic type never occur in the update loop. -/
def setField (it : InventoryItem) : FieldName → Val → InventoryItem
  | .fname, .vStr s => { it with name := s }
  | .fsku, .vStr s => { it with sku := s }
  | .fdescription, .vStr s => { it with description := some s }
  | .fquantity, .vInt n => { it with quantity := n }
  | .funit_price, .vRat q => { it with unit_price := q }
  | .fcategory, .vStr s => { it with category := some s }
  | .flocation, .vStr s => { it with location := some s }
  | _, _ => it

/-- The diff entry recorded for one changed field. -/
def diffJson (o v : Val) : Json := .jObj [("old", o.toJson), ("new", v.toJson)]

/-- One iteration of the change-tracking loop of `update_inventory_item`:
skip the field if it is unset or supplied as `null` (`if value is not None`);
otherwise compare with the current attribute and, when different, append the
diff entry and assign the new value. -/
def updateStep (u : InventoryItemUpdate)
    (acc : List (String × Json) × InventoryItem) (f : FieldName) :
    List (String × Json) × InventoryItem :=
  match suppliedVal u f with
  | some (some v) =>
    let old := getVal acc.2 f
    if old = v then acc
    else (acc.1 ++ [(f.key, diffJson old v)], setField acc.2 f v)
  | _ => acc

/-- The whole change-tracking loop: iterate over the supplied fields in
declaration order, starting from an empty `changes` dictionary and the loaded
item. -/
def applyUpdate (it : InventoryItem) (u : InventoryItemUpdate) :
    List (String × Json) × InventoryItem :=
  FieldName.all.foldl (updateStep u) ([], it)

/-- The committed database state: the rows of the three tables, the
sequence counters for primary keys, and the current clock used for the
server-side `now()` timestamps. -/
structure DBState where
  users : List User
  items : List InventoryItem
  audits : List AuditLog
  next_user_id : Nat
  next_item_id : Nat
  next_audit_id : Nat
  now : Nat

/-- Outcome of one request, together with the committed state after it.
`ok` is a successful response; `err` is a raised `HTTPException` (status
code and detail) after which `get_db` rolls the transaction back; `fail`
is any other exception (failed persistence call, integrity error,
`MultipleResultsFound`), surfaced as a 500 after rollback. -/
inductive Res (α : Type) where
  | ok : DBState → α → Res α
  | err : Nat → String → DBState → Res α
  | fail : DBState → Res α

/-- The committed state after a request, whatever its outcome. -/
def Res.state {α : Type} : Res α → DBState
  | .ok st _ => st
  | .err _ _ st => st
  | .fail st => st

/-- Model of SQLAlchemy `Result.scalar_one_or_none()`: `none` for zero rows,
the row for exactly one, and a raised `MultipleResultsFound` otherwise. -/
def scalarOneOrNone {α : Type} : List α → Except Unit (Option α)
  | [] => .ok none
  | [x] => .ok (some x)
  | _ => .error ()

/-- Uniqueness violation fired by the database `UNIQUE` constraint on
`inventory_items.sku` (`models.py`) when the row `it` is written: some other
row carries the same SKU. -/
def skuClash (items : List InventoryItem) (it : InventoryItem) : Bool :=
  items.any (fun j => j.id ≠ it.id && j.sku == it.sku)

/-- Model of `log_audit`: `changes` is serialized with
`json.dumps(changes) if changes else None`, so an empty dictionary is stored
as `NULL`. -/
def auditChanges (l : List (String × Json)) : Option Json :=
  if l.isEmpty then none else some (.jObj l)

/-- JSON rendering of an optional string (pydantic `Optional[str]`). -/
def optStrJson : Option String → Json
  | none => .jNull
  | some s => .jStr s

/-- Model of `item.model_dump()` for a create request: all seven fields in
declaration order. -/
def createDump (b : InventoryItemCreate) : List (String × Json) :=
  [("name", .jStr b.name), ("sku", .jStr b.sku),
   ("description", optStrJson b.description), ("quantity", .jInt b.quantity),
   ("unit_price", .jRat b.unit_price), ("category", optStrJson b.category),
   ("location", optStrJson b.location)]

/-- The row inserted by `create_inventory_item`:
`InventoryItem(**item.model_dump(), created_by=current_user.id)`, with the
primary key drawn from the sequence and `created_at` from the server
clock. -/
def newItemOf (st : DBState) (actor : User) (body : InventoryItemCreate) :
    InventoryItem :=
  { id := st.next_item_id, name := body.name, sku := body.sku,
    description := body.description, quantity := body.quantity,
    unit_price := body.unit_price, category := body.category,
    location := body.location, created_by := actor.id,
    created_at := st.now, updated_at := none }

/-- The audit row written by the create handler: action `CREATE`, item
reference = the new id, payload = the full created-field snapshot. -/
def createAuditOf (st : DBState) (actor : User) (body : InventoryItemCreate) :
    AuditLog :=
  { id := st.next_audit_id, action := "CREATE", item_id := some st.next_item_id,
    user_id := actor.id, changes := auditChanges (createDump body),
    timestamp := st.now }

/-- Handler body of `POST /inventory` (`create_inventory_item`), after the
dependency layer has resolved the acting user.  Persistence calls are
numbered in execution order: 0 is the flush of the inserted item (where the
SKU uniqueness constraint can fire), 1 is the flush of the audit row inside
`log_audit`, 2 is the commit; `oracle n = true` makes call `n` raise, and
any raise rolls back to the entry state. -/
def create_inventory_item (st : DBState) (actor : User)
    (body : InventoryItemCreate) (oracle : Nat → Bool) : Res InventoryItem :=
  match scalarOneOrNone (st.items.filter (fun i => i.sku == body.sku)) with
  | .error _ => .fail st
  | .ok (some _) =>
    .err 400 ("Item with SKU " ++ body.sku ++ " already exists") st
  | .ok none =>
    if skuClash st.items (newItemOf st actor body) then .fail st
    else if oracle 0 then .fail st
    else if oracle 1 then .fail st
    else if oracle 2 then .fail st
    else
      .ok { st with items := st.items ++ [newItemOf st actor body],
                    audits := st.audits ++ [createAuditOf st actor body],
                    next_item_id := st.next_item_id + 1,
                    next_audit_id := st.next_audit_id + 1 }
        (newItemOf st actor body)

/-- Handler body of `PUT /inventory/{item_id}` (`update_inventory_item`).
When the computed diff is non-empty the persistence calls are: 0 the flush of
the updated row (where the SKU uniqueness constraint can fire and where the
`onupdate` timestamp is assigned), 1 the flush of the audit row, 2 the
commit.  When the diff is empty the only call is the commit (0); nothing was
modified, so the item row and `updated_at` are untouched.  The updated row
itself (`updatedItemOf`) carries the assigned fields of the update loop plus
the `onupdate` timestamp set at flush time. -/
def updatedItemOf (db_item : InventoryItem) (u : InventoryItemUpdate)
    (t : Nat) : InventoryItem :=
  { (applyUpdate db_item u).2 with updated_at := some t }

/-- The audit row written by a non-empty-diff update: action `UPDATE`, item
reference = the item id, payload = the diff dictionary. -/
def updateAuditOf (st : DBState) (actor : User) (item_id : Nat)
    (changes : List (String × Json)) : AuditLog :=
  { id := st.next_audit_id, action := "UPDATE", item_id := some item_id,
    user_id := actor.id, changes := auditChanges changes, timestamp := st.now }

/-- The item rows after the updated row is flushed. -/
def pendingItemsOf (st : DBState) (item_id : Nat) (it2 : InventoryItem) :
    List InventoryItem :=
  st.items.map (fun i => if i.id == item_id then it2 else i)

def update_inventory_item (st : DBState) (actor : User) (item_id : Nat)
    (u : InventoryItemUpdate) (oracle : Nat → Bool) : Res InventoryItem :=
  match scalarOneOrNone (st.items.filter (fun i => i.id == item_id)) with
  | .error _ => .fail st
  | .ok none => .err 404 "Inventory item not found" st
  | .ok (some db_item) =>
    if (applyUpdate db_item u).1.isEmpty then
      if oracle 0 then .fail st else .ok st (applyUpdate db_item u).2
    else
      if skuClash (pendingItemsOf st item_id (updatedItemOf db_item u st.now))
          (updatedItemOf db_item u st.now) then .fail st
      else if oracle 0 then .fail st
      else if oracle 1 then .fail st
      else if oracle 2 then .fail st
      else
        .ok { st with
              items := pendingItemsOf st item_id (updatedItemOf db_item u st.now),
              audits := st.audits ++
                [updateAuditOf st actor item_id (applyUpdate db_item u).1],
              next_audit_id := st.next_audit_id + 1 }
          (updatedItemOf db_item u st.now)

/-- The audit row written by the delete handler, as `log_audit` flushes it:
action `DELETE`, item reference = item id, payload `deleted_item` = the name
at time of deletion. -/
def deleteAuditOf (st : DBState) (actor : User) (item_id : Nat)
    (nm : String) : AuditLog :=
  { id := st.next_audit_id, action := "DELETE", item_id := some item_id,
    user_id := actor.id,
    changes := auditChanges [("deleted_item", .jStr nm)], timestamp := st.now }

/-- Set an audit row's item reference to NULL when it points at the row
being deleted.  This is the ORM's flush-time handling of the
`InventoryItem.audit_logs` relationship in `models.py`: the relationship
declares no `delete` cascade, `passive_deletes` is off, and
`AuditLog.item_id` is a nullable foreign key with no `ondelete` behaviour,
so deleting the parent loads the referencing audit rows inside the flush and
issues `UPDATE audit_logs SET item_id = NULL` for each of them — the
just-flushed `DELETE` entry included — before the `DELETE` statement for the
item row runs. -/
def nullItemRef (item_id : Nat) (a : AuditLog) : AuditLog :=
  if a.item_id = some item_id then { a with item_id := none } else a

/-- Handler body of `DELETE /inventory/{item_id}` (`delete_inventory_item`).
The audit row (`deleteAuditOf`) is flushed (call 0) before `db.delete`; the
commit (call 1) then flushes the deletion, which first nulls the item
reference of every audit row of this item (`nullItemRef`, see there) and
then removes the item row. -/
def delete_inventory_item (st : DBState) (actor : User) (item_id : Nat)
    (oracle : Nat → Bool) : Res Unit :=
  match scalarOneOrNone (st.items.filter (fun i => i.id == item_id)) with
  | .error _ => .fail st
  | .ok none => .err 404 "Inventory item not found" st
  | .ok (some db_item) =>
    if oracle 0 then .fail st
    else if oracle 1 then .fail st
    else
      .ok { st with items := st.items.filter (fun i => i.id ≠ item_id),
                    audits := (st.audits ++
                      [deleteAuditOf st actor item_id db_item.name]).map
                        (nullItemRef item_id),
                    next_audit_id := st.next_audit_id + 1 } ()

/-- Modelled from the spec: `require_role` is defined in `auth.py`, which is
not among the source files here (only its callers in the routers are).  Per
§4.2 of the spec it is a pure authorization check — membership of the
actor's role in the explicit allowed set, with no role hierarchy — failing
with 403 Forbidden otherwise. -/
def require_role (allowed : List UserRole) (actor : User) :
    Except (Nat × String) User :=
  if actor.role ∈ allowed then .ok actor
  else .error (403, "Operation not permitted")

/-- `POST /inventory` including its dependency gate: the router declares
`require_role([UserRole.ADMIN, UserRole.MANAGER])`. -/
def create_endpoint (st : DBState) (actor : User) (body : InventoryItemCreate)
    (oracle : Nat → Bool) : Res InventoryItem :=
  match require_role [.admin, .manager] actor with
  | .error e => .err e.1 e.2 st
  | .ok u => create_inventory_item st u body oracle

/-- `PUT /inventory/{item_id}` including its dependency gate
(`require_role([UserRole.ADMIN, UserRole.MANAGER])`). -/
def update_endpoint (st : DBState) (actor : User) (item_id : Nat)
    (u : InventoryItemUpdate) (oracle : Nat → Bool) : Res InventoryItem :=
  match require_role [.admin, .manager] actor with
  | .error e => .err e.1 e.2 st
  | .ok usr => update_inventory_item st usr item_id u oracle

/-- `DELETE /inventory/{item_id}` including its dependency gate
(`require_role([UserRole.ADMIN])`). -/
def delete_endpoint (st : DBState) (actor : User) (item_id : Nat)
    (oracle : Nat → Bool) : Res Unit :=
  match require_role [.admin] actor with
  | .error e => .err e.1 e.2 st
  | .ok usr => delete_inventory_item st usr item_id oracle

/-- Request body of `POST /auth/register` (`schemas.UserCreate`), after
pydantic validation. -/
structure UserCreate where
  email : String
  username : String
  full_name : Option String
  role : UserRole
  password : String
deriving DecidableEq, Repr

/-- Handler body of `POST /auth/register` (`auth_router.register`).  The
existing-user lookup selects rows matching the email **or** the username and
runs `scalar_one_or_none()` on the result; password hashing is the external
capability `hash`.  Persistence call 0 is the commit. -/
def register (st : DBState) (body : UserCreate) (hash : String → String)
    (oracle : Nat → Bool) : Res User :=
  match scalarOneOrNone (st.users.filter
      (fun u => u.email == body.email || u.username == body.username)) with
  | .error _ => .fail st
  | .ok (some existing) =>
    if existing.email == body.email then .err 400 "Email already registered" st
    else .err 400 "Username already taken" st
  | .ok none =>
    let db_user : User :=
      { id := st.next_user_id, email := body.email, username := body.username,
        hashed_password := hash body.password, full_name := body.full_name,
        role := body.role, is_active := true }
    if oracle 0 then .fail st
    else
      .ok { st with users := st.users ++ [db_user],
                    next_user_id := st.next_user_id + 1 } db_user

/-- Round a rational to the nearest integer, ties to even — the semantics of
Python `round`. -/
def roundHalfEven (x : ℚ) : ℤ :=
  let n := ⌊x⌋
  let r := x - (n : ℚ)
  if r < 1/2 then n
  else if 1/2 < r then n + 1
  else if n % 2 = 0 then n else n + 1

theorem roundHalfEven_intCast (n : ℤ) : roundHalfEven (n : ℚ) = n := by
  simp only [roundHalfEven, Int.floor_intCast, sub_self]
  norm_num

/-- Python `round(x, 2)`: round to two decimal places. -/
def round2 (x : ℚ) : ℚ := (roundHalfEven (x * 100) : ℚ) / 100

theorem round2_intCast (n : ℤ) : round2 (n : ℚ) = (n : ℚ) := by
  unfold round2
  rw [show ((n : ℚ) * 100) = (((n * 100 : ℤ)) : ℚ) by push_cast; ring,
    roundHalfEven_intCast]
  push_cast
  exact mul_div_cancel_right₀ _ (by norm_num)

/-- Response of `GET /inventory/stats`. -/
structure InventoryStats where
  total_items : Nat
  total_value : ℚ
  low_stock_items : Nat
  categories_count : Nat
deriving DecidableEq, Repr

/-- Handler body of `GET /inventory/stats` (`get_inventory_stats`): a row
count, `SUM(quantity * unit_price)` with `NULL` coalesced to 0 and rounded to
two decimals, a count of rows with `quantity < 10`, and
`COUNT(DISTINCT category)` — which in SQL ignores `NULL` categories. -/
def get_inventory_stats (st : DBState) : InventoryStats :=
  { total_items := st.items.length,
    total_value :=
      round2 (st.items.foldl (fun acc i => acc + (i.quantity : ℚ) * i.unit_price) 0),
    low_stock_items := (st.items.filter (fun i => decide (i.quantity < 10))).length,
    categories_count := ((st.items.filterMap (fun i => i.category)).dedup).length }

/-- Descending order on creation time: the `ORDER BY created_at DESC` of the
listing query. -/
def createdDesc (a b : InventoryItem) : Prop := b.created_at ≤ a.created_at

instance : DecidableRel createdDesc := fun a b => Nat.decLe b.created_at a.created_at

instance : IsTotal InventoryItem createdDesc :=
  ⟨fun a b => Nat.le_total b.created_at a.created_at⟩

instance : IsTrans InventoryItem createdDesc :=
  ⟨fun _ _ _ h1 h2 => Nat.le_trans h2 h1⟩

/-- Contiguous-infix test on character lists. -/
def infixOf (n : List Char) : List Char → Bool
  | [] => n.isEmpty
  | c :: t => n.isPrefixOf (c :: t) || infixOf n t

/-- SQL `col ILIKE concat of percent, pat, percent`: case-insensitive
substring containment. -/
def ilike (s pat : String) : Bool := infixOf pat.toLower.data s.toLower.data

/-- The OR-combined search filter of the listing query: match against name,
SKU, or description, a `NULL` description matching nothing. -/
def matchesSearch (i : InventoryItem) (s : String) : Bool :=
  ilike i.name s || ilike i.sku s ||
    (match i.description with | none => false | some d => ilike d s)

/-- The `if search:` where-clause: applied only when the parameter is truthy
(present and non-empty). -/
def searchFilter (items : List InventoryItem) : Option String → List InventoryItem
  | some s => if s = "" then items else items.filter (fun i => matchesSearch i s)
  | none => items

/-- The `if category:` where-clause: exact equality, applied only when the
parameter is truthy. -/
def categoryFilter (items : List InventoryItem) : Option String → List InventoryItem
  | some c => if c = "" then items else items.filter (fun i => i.category == some c)
  | none => items

/-- Handler body of `GET /inventory` (`get_inventory_items`).  The `skip` and
`limit` query parameters are declared `Query(0, ge=0)` and
`Query(100, ge=1, le=1000)`: FastAPI **validates** them and answers 422 when
they are out of range, it does not clamp them.  Accepted requests return the
filtered rows ordered by creation time descending, with offset/limit
pagination. -/
def get_inventory_items (st : DBState) (skip limit : Int)
    (search category : Option String) : Res (List InventoryItem) :=
  if 0 ≤ skip ∧ 1 ≤ limit ∧ limit ≤ 1000 then
    .ok st ((((categoryFilter (searchFilter st.items search) category).insertionSort
      createdDesc).drop skip.toNat).take limit.toNat)
  else .err 422 "validation error" st

/-! ### Helper lemmas about the change-tracking loop -/

/-- Expected diff contribution of one field, computed against a fixed
reference item. -/
def diffAt (it : InventoryItem) (u : InventoryItemUpdate) (f : FieldName) :
    Option (String × Json) :=
  match suppliedVal u f with
  | some (some v) =>
    if getVal it f = v then none else some (f.key, diffJson (getVal it f) v)
  | _ => none

theorem getVal_setField_ne (it : InventoryItem) (f g : FieldName) (v : Val)
    (h : g ≠ f) : getVal (setField it f v) g = getVal it g := by
  cases f <;> cases g <;> first
    | exact absurd rfl h
    | (cases v <;> rfl)

theorem updateStep_skip (u : InventoryItemUpdate)
    (acc : List (String × Json) × InventoryItem) (f : FieldName)
    (h : ∀ v : Val, suppliedVal u f ≠ some (some v)) :
    updateStep u acc f = acc := by
  unfold updateStep
  rcases hsv : suppliedVal u f with _ | w
  · rfl
  · rcases w with _ | v
    · rfl
    · exact absurd hsv (h v)

theorem updateStep_eq (u : InventoryItemUpdate)
    (acc : List (String × Json) × InventoryItem) (f : FieldName) (v : Val)
    (h : suppliedVal u f = some (some v)) (he : getVal acc.2 f = v) :
    updateStep u acc f = acc := by
  unfold updateStep
  rw [h]
  simp [he]

theorem updateStep_ne (u : InventoryItemUpdate)
    (acc : List (String × Json) × InventoryItem) (f : FieldName) (v : Val)
    (h : suppliedVal u f = some (some v)) (he : ¬ getVal acc.2 f = v) :
    updateStep u acc f =
      (acc.1 ++ [(f.key, diffJson (getVal acc.2 f) v)], setField acc.2 f v) := by
  unfold updateStep
  rw [h]
  simp [he]

theorem diffAt_skip (it0 : InventoryItem) (u : InventoryItemUpdate)
    (f : FieldName) (h : ∀ v : Val, suppliedVal u f ≠ some (some v)) :
    diffAt it0 u f = none := by
  unfold diffAt
  rcases hsv : suppliedVal u f with _ | w
  · rfl
  · rcases w with _ | v
    · rfl
    · exact absurd hsv (h v)

theorem diffAt_eq (it0 : InventoryItem) (u : InventoryItemUpdate)
    (f : FieldName) (v : Val)
    (h : suppliedVal u f = some (some v)) (he : getVal it0 f = v) :
    diffAt it0 u f = none := by
  unfold diffAt
  rw [h]
  simp [he]

theorem diffAt_ne (it0 : InventoryItem) (u : InventoryItemUpdate)
    (f : FieldName) (v : Val)
    (h : suppliedVal u f = some (some v)) (he : ¬ getVal it0 f = v) :
    diffAt it0 u f = some (f.key, diffJson (getVal it0 f) v) := by
  unfold diffAt
  rw [h]
  simp [he]

theorem foldl_updateStep_changes (u : InventoryItemUpdate)
    (fs : List FieldName) (hnd : fs.Nodup) (it0 : InventoryItem) :
    ∀ (it : InventoryItem) (c : List (String × Json)),
      (∀ f ∈ fs, getVal it f = getVal it0 f) →
      (fs.foldl (updateStep u) (c, it)).1 = c ++ fs.filterMap (diffAt it0 u) := by
  induction fs with
  | nil => intro it c _; simp
  | cons f t ih =>
    intro it c hag
    have hndt : t.Nodup := hnd.of_cons
    have hft : f ∉ t := (List.nodup_cons.mp hnd).1
    have hagf : getVal it f = getVal it0 f := hag f (List.mem_cons_self f t)
    have hagt : ∀ g ∈ t, getVal it g = getVal it0 g :=
      fun g hg => hag g (List.mem_cons_of_mem f hg)
    rw [List.foldl_cons, List.filterMap_cons]
    by_cases hset : ∃ v : Val, suppliedVal u f = some (some v)
    · rcases hset with ⟨v, hsv⟩
      by_cases heq : getVal it f = v
      · rw [updateStep_eq u (c, it) f v hsv heq,
          diffAt_eq it0 u f v hsv (hagf.symm.trans heq)]
        exact ih hndt it c hagt
      · have heq0 : ¬ getVal it0 f = v := fun h0 => heq (hagf.trans h0)
        rw [updateStep_ne u (c, it) f v hsv heq, diffAt_ne it0 u f v hsv heq0]
        have hagt2 : ∀ g ∈ t, getVal (setField it f v) g = getVal it0 g :=
          fun g hg =>
            (getVal_setField_ne it f g v (fun hgf => hft (hgf ▸ hg))).trans (hagt g hg)
        rw [ih hndt (setField it f v) (c ++ [(f.key, diffJson (getVal it f) v)]) hagt2]
        simp [hagf]
    · have hsk : ∀ v : Val, suppliedVal u f ≠ some (some v) :=
        fun v hv => hset ⟨v, hv⟩
      rw [updateStep_skip u (c, it) f hsk, diffAt_skip it0 u f hsk]
      exact ih hndt it c hagt

theorem foldl_updateStep_item (u : InventoryItemUpdate) (fs : List FieldName) :
    ∀ (it : InventoryItem) (c : List (String × Json)),
      fs.filterMap (diffAt it u) = [] →
      (fs.foldl (updateStep u) (c, it)).2 = it := by
  induction fs with
  | nil => intro it c _; rfl
  | cons f t ih =>
    intro it c h
    rw [List.filterMap_cons] at h
    cases hd : diffAt it u f with
    | some e => rw [hd] at h; exact absurd h (List.cons_ne_nil e _)
    | none =>
      rw [hd] at h
      rw [List.foldl_cons]
      by_cases hset : ∃ v : Val, suppliedVal u f = some (some v)
      · rcases hset with ⟨v, hsv⟩
        by_cases heq : getVal it f = v
        · rw [updateStep_eq u (c, it) f v hsv heq]
          exact ih it c h
        · rw [diffAt_ne it u f v hsv heq] at hd
          cases hd
      · rw [updateStep_skip u (c, it) f (fun v hv => hset ⟨v, hv⟩)]
        exact ih it c h

theorem FieldName.mem_all (f : FieldName) : f ∈ FieldName.all := by
  cases f <;> simp [FieldName.all]

theorem FieldName.all_nodup : FieldName.all.Nodup := by decide

/-- The changes dictionary computed by the update loop is exactly the
per-field diffs against the loaded item, in field order. -/
theorem applyUpdate_changes (it : InventoryItem) (u : InventoryItemUpdate) :
    (applyUpdate it u).1 = FieldName.all.filterMap (diffAt it u) := by
  have h := foldl_updateStep_changes u FieldName.all FieldName.all_nodup it it []
    (fun _ _ => rfl)
  simpa [applyUpdate] using h

/-- When the update loop records no change, it also assigns no field: the
item object is untouched. -/
theorem applyUpdate_item_of_no_changes (it : InventoryItem)
    (u : InventoryItemUpdate) (h : (applyUpdate it u).1 = []) :
    (applyUpdate it u).2 = it := by
  have hc := applyUpdate_changes it u
  rw [h] at hc
  exact foldl_updateStep_item u FieldName.all it [] hc.symm

/-- Membership characterization of the recorded changes dictionary: an entry
is present exactly for a field that is supplied with a non-null value
different from the current one, and it carries the correct old and new
values. -/
theorem applyUpdate_mem_iff (it : InventoryItem) (u : InventoryItemUpdate)
    (s : String) (j : Json) :
    (s, j) ∈ (applyUpdate it u).1 ↔
      ∃ (f : FieldName) (v : Val), s = f.key ∧
        suppliedVal u f = some (some v) ∧ getVal it f ≠ v ∧
        j = diffJson (getVal it f) v := by
  rw [applyUpdate_changes, List.mem_filterMap]
  constructor
  · rintro ⟨f, _, hd⟩
    by_cases hset : ∃ v : Val, suppliedVal u f = some (some v)
    · rcases hset with ⟨v, hsv⟩
      by_cases heq : getVal it f = v
      · rw [diffAt_eq it u f v hsv heq] at hd; cases hd
      · rw [diffAt_ne it u f v hsv heq] at hd
        have hd2 : (f.key, diffJson (getVal it f) v) = (s, j) := Option.some.inj hd
        exact ⟨f, v, (congrArg Prod.fst hd2).symm, hsv, heq,
          (congrArg Prod.snd hd2).symm⟩
    · rw [diffAt_skip it u f (fun v hv => hset ⟨v, hv⟩)] at hd; cases hd
  · rintro ⟨f, v, rfl, hsv, hne, rfl⟩
    exact ⟨f, FieldName.mem_all f, diffAt_ne it u f v hsv hne⟩

/-! ### Small lemmas about the persistence helpers -/

theorem scalarOneOrNone_ok_none {α : Type} {l : List α}
    (h : scalarOneOrNone l = .ok none) : l = [] := by
  match l with
  | [] => rfl
  | [x] => exact absurd h (by simp [scalarOneOrNone])
  | x :: y :: t => exact absurd h (by simp [scalarOneOrNone])

theorem scalarOneOrNone_ok_some {α : Type} {l : List α} {x : α}
    (h : scalarOneOrNone l = .ok (some x)) : l = [x] := by
  match l with
  | [] => exact absurd h (by simp [scalarOneOrNone])
  | [y] =>
    have : y = x := by
      have h2 := h
      simp only [scalarOneOrNone] at h2
      exact Option.some.inj (Except.ok.inj h2)
    rw [this]
  | y :: z :: t => exact absurd h (by simp [scalarOneOrNone])

theorem two_le_length_of_mem_ne {α : Type} {l : List α} {a b : α}
    (ha : a ∈ l) (hb : b ∈ l) (hne : a ≠ b) : 2 ≤ l.length := by
  match l with
  | [] => exact absurd ha (List.not_mem_nil a)
  | [x] =>
    rw [List.mem_singleton] at ha hb
    exact absurd (ha.trans hb.symm) hne
  | x :: y :: t => simp only [List.length_cons]; omega

theorem scalarOneOrNone_error_of_two {α : Type} {l : List α}
    (h : 2 ≤ l.length) : scalarOneOrNone l = .error () := by
  match l with
  | [] => simp at h
  | [x] => simp at h
  | x :: y :: t => rfl

theorem filter_key_eq_singleton {α β : Type} [DecidableEq β] (key : α → β)
    (l : List α) (hnd : (l.map key).Nodup) (a : α) (ha : a ∈ l) (s : β)
    (hs : key a = s) : l.filter (fun x => key x == s) = [a] := by
  induction l with
  | nil => exact absurd ha (List.not_mem_nil a)
  | cons x t ih =>
    rw [List.map_cons, List.nodup_cons] at hnd
    rcases List.mem_cons.mp ha with rfl | hat
    · have ht : t.filter (fun x => key x == s) = [] := by
        rw [List.filter_eq_nil_iff]
        intro y hy hkey
        rw [beq_iff_eq] at hkey
        exact hnd.1 (hs ▸ hkey ▸ List.mem_map_of_mem key hy)
      rw [List.filter_cons, if_pos (by rw [beq_iff_eq]; exact hs), ht]
    · have hx : ¬ (key x == s) = true := by
        rw [beq_iff_eq]
        intro hxs
        exact hnd.1 (hxs.trans hs.symm ▸ List.mem_map_of_mem key hat)
      rw [List.filter_cons, if_neg hx]
      exact ih hnd.2 hat

/-! ### Concrete fixtures used by witnesses and counterexamples -/

/-- An all-successful persistence oracle: no flush or commit fails. -/
def happyOracle : Nat → Bool := fun _ => false

/-- A sample administrator. -/
def actorAdmin : User :=
  { id := 1, email := "root@x.com", username := "root", hashed_password := "h",
    full_name := none, role := .admin, is_active := true }

/-- A sample inventory item. -/
def item0 : InventoryItem :=
  { id := 1, name := "Widget", sku := "SKU-1", description := some "x",
    quantity := 5, unit_price := 10, category := some "tools", location := none,
    created_by := 1, created_at := 0, updated_at := none }

/-- A state holding `item0` only. -/
def st0 : DBState :=
  { users := [actorAdmin], items := [item0], audits := [],
    next_user_id := 2, next_item_id := 2, next_audit_id := 1, now := 7 }

/-- The empty state. -/
def stEmpty : DBState :=
  { users := [], items := [], audits := [],
    next_user_id := 1, next_item_id := 1, next_audit_id := 1, now := 0 }

/-! ### Outcome case analyses for the three mutation handlers -/

theorem create_cases (st : DBState) (actor : User) (body : InventoryItemCreate)
    (oracle : Nat → Bool) :
    (create_inventory_item st actor body oracle).state = st ∨
    (st.items.filter (fun i => i.sku == body.sku) = [] ∧
      create_inventory_item st actor body oracle =
        .ok { st with items := st.items ++ [newItemOf st actor body],
                      audits := st.audits ++ [createAuditOf st actor body],
                      next_item_id := st.next_item_id + 1,
                      next_audit_id := st.next_audit_id + 1 }
          (newItemOf st actor body)) := by
  rcases hsc : scalarOneOrNone (st.items.filter (fun i => i.sku == body.sku))
    with e | o
  · left; simp [create_inventory_item, hsc, Res.state]
  · rcases o with _ | x
    · by_cases h1 : skuClash st.items (newItemOf st actor body) = true
      · left; simp [create_inventory_item, hsc, h1, Res.state]
      · by_cases h2 : oracle 0 = true
        · left; simp [create_inventory_item, hsc, h1, h2, Res.state]
        · by_cases h3 : oracle 1 = true
          · left; simp [create_inventory_item, hsc, h1, h2, h3, Res.state]
          · by_cases h4 : oracle 2 = true
            · left; simp [create_inventory_item, hsc, h1, h2, h3, h4, Res.state]
            · right
              exact ⟨scalarOneOrNone_ok_none hsc,
                by simp [create_inventory_item, hsc, h1, h2, h3, h4]⟩
    · left; simp [create_inventory_item, hsc, Res.state]

theorem update_cases (st : DBState) (actor : User) (item_id : Nat)
    (u : InventoryItemUpdate) (oracle : Nat → Bool) :
    update_inventory_item st actor item_id u oracle = .fail st ∨
    update_inventory_item st actor item_id u oracle =
      .err 404 "Inventory item not found" st ∨
    (∃ db_item, scalarOneOrNone (st.items.filter (fun i => i.id == item_id)) =
        .ok (some db_item) ∧ (applyUpdate db_item u).1 = [] ∧
      update_inventory_item st actor item_id u oracle =
        .ok st (applyUpdate db_item u).2) ∨
    (∃ db_item, scalarOneOrNone (st.items.filter (fun i => i.id == item_id)) =
        .ok (some db_item) ∧ (applyUpdate db_item u).1 ≠ [] ∧
      update_inventory_item st actor item_id u oracle =
        .ok { st with
              items := pendingItemsOf st item_id (updatedItemOf db_item u st.now),
              audits := st.audits ++
                [updateAuditOf st actor item_id (applyUpdate db_item u).1],
              next_audit_id := st.next_audit_id + 1 }
          (updatedItemOf db_item u st.now)) := by
  rcases hsc : scalarOneOrNone (st.items.filter (fun i => i.id == item_id))
    with e | o
  · left; simp [update_inventory_item, hsc]
  · rcases o with _ | db_item
    · right; left; simp [update_inventory_item, hsc]
    · by_cases hemp : (applyUpdate db_item u).1.isEmpty = true
      · by_cases h0 : oracle 0 = true
        · left; simp [update_inventory_item, hsc, hemp, h0]
        · right; right; left
          exact ⟨db_item, hsc, List.isEmpty_iff.mp hemp,
            by simp [update_inventory_item, hsc, hemp, h0]⟩
      · by_cases hcl : skuClash
            (pendingItemsOf st item_id (updatedItemOf db_item u st.now))
            (updatedItemOf db_item u st.now) = true
        · left; simp [update_inventory_item, hsc, hemp, hcl]
        · by_cases h0 : oracle 0 = true
          · left; simp [update_inventory_item, hsc, hemp, hcl, h0]
          · by_cases h1 : oracle 1 = true
            · left; simp [update_inventory_item, hsc, hemp, hcl, h0, h1]
            · by_cases h2 : oracle 2 = true
              · left; simp [update_inventory_item, hsc, hemp, hcl, h0, h1, h2]
              · right; right; right
                exact ⟨db_item, hsc,
                  fun hn => hemp (List.isEmpty_iff.mpr hn),
                  by simp [update_inventory_item, hsc, hemp, hcl, h0, h1, h2]⟩

theorem delete_cases (st : DBState) (actor : User) (item_id : Nat)
    (oracle : Nat → Bool) :
    delete_inventory_item st actor item_id oracle = .fail st ∨
    delete_inventory_item st actor item_id oracle =
      .err 404 "Inventory item not found" st ∨
    (∃ db_item, scalarOneOrNone (st.items.filter (fun i => i.id == item_id)) =
        .ok (some db_item) ∧
      delete_inventory_item st actor item_id oracle =
        .ok { st with items := st.items.filter (fun i => i.id ≠ item_id),
                      audits := (st.audits ++
                        [deleteAuditOf st actor item_id db_item.name]).map
                          (nullItemRef item_id),
                      next_audit_id := st.next_audit_id + 1 } ()) := by
  rcases hsc : scalarOneOrNone (st.items.filter (fun i => i.id == item_id))
    with e | o
  · left; simp [delete_inventory_item, hsc]
  · rcases o with _ | db_item
    · right; left; simp [delete_inventory_item, hsc]
    · by_cases h0 : oracle 0 = true
      · left; simp [delete_inventory_item, hsc, h0]
      · by_cases h1 : oracle 1 = true
        · left; simp [delete_inventory_item, hsc, h0, h1]
        · right; right
          exact ⟨db_item, hsc, by simp [delete_inventory_item, hsc, h0, h1]⟩

/-! ### C2: field-level diff of the update operation -/

/-- The diff contract exactly as the claim states it: a field participates in
the recorded change payload if and only if it is present in the update
request and its new value (a supplied `null` counting as the value `None`)
differs from the item's current value. -/
def specDiffContract (it : InventoryItem) (u : InventoryItemUpdate) : Prop :=
  ∀ f : FieldName,
    (∃ j, (f.key, j) ∈ (applyUpdate it u).1) ↔
      (∃ w : Option Val, suppliedVal u f = some w ∧ w.getD Val.vNone ≠ getVal it f)

/-- An update request whose only supplied field is `description`, supplied
explicitly as `null` (with pydantic `exclude_unset`, such a field is present
in `update_data` with value `None`). -/
def updNullDescription : InventoryItemUpdate :=
  { name := none, sku := none, description := some none, quantity := none,
    unit_price := none, category := none, location := none }

/-- C2, counterexample.  `item0` has `description = "x"`; the request
supplies `description: null`, a present field whose new value differs from
the current one, yet the loop guard `if value is not None` skips it and the
recorded change payload is empty.  The claim "the payload contains exactly
those fields that are present in the update request and whose new value
differs" is therefore false at this input. -/
theorem update_diff_contract_counterexample :
    ¬ specDiffContract item0 updNullDescription := by
  intro h
  rcases (h .fdescription).mpr ⟨none, rfl, by decide⟩ with ⟨j, hj⟩
  have hempty : (applyUpdate item0 updNullDescription).1 = [] := rfl
  rw [hempty] at hj
  exact absurd hj (List.not_mem_nil _)

/-- C2, amended: the recorded change payload contains exactly those fields
that are supplied with a **non-null** value in the update request and whose
new value differs from the item's current value, each recorded under the
field's key as a dictionary with the correct old and new values; unchanged,
absent, or null-valued fields do not participate. -/
theorem update_diff_records_changed_nonnull_fields :
    ∀ (it : InventoryItem) (u : InventoryItemUpdate) (s : String) (j : Json),
      (s, j) ∈ (applyUpdate it u).1 ↔
        ∃ (f : FieldName) (v : Val), s = f.key ∧
          suppliedVal u f = some (some v) ∧ getVal it f ≠ v ∧
          j = diffJson (getVal it f) v :=
  applyUpdate_mem_iff

/-! ### C3: empty-diff update is a silent no-op -/

/-- C3: an update of an existing item whose computed diff is empty (every
supplied non-null value equals the current one) succeeds, writes no audit
entry, and leaves the stored item — its `updated_at` timestamp included —
untouched: the committed state is exactly the entry state and the response
is the loaded item itself. -/
theorem update_empty_diff_noop (st : DBState) (actor : User) (item_id : Nat)
    (u : InventoryItemUpdate) (oracle : Nat → Bool) (db_item : InventoryItem)
    (hfind : scalarOneOrNone (st.items.filter (fun i => i.id == item_id)) =
      .ok (some db_item))
    (hempty : (applyUpdate db_item u).1 = [])
    (hok : ∀ n, oracle n = false) :
    update_inventory_item st actor item_id u oracle = .ok st db_item := by
  have h2 := applyUpdate_item_of_no_changes db_item u hempty
  simp only [update_inventory_item, hfind]
  rw [hempty]
  simp [hok 0, h2]

/-- An update request supplying only `quantity`, with the value `item0`
already has. -/
def updSameQuantity : InventoryItemUpdate :=
  { name := none, sku := none, description := none, quantity := some (some 5),
    unit_price := none, category := none, location := none }

/-- C3 witness: the no-op update theorem applied at a concrete state. -/
theorem update_empty_diff_noop_witness :
    update_inventory_item st0 actorAdmin 1 updSameQuantity happyOracle =
      .ok st0 item0 :=
  update_empty_diff_noop st0 actorAdmin 1 updSameQuantity happyOracle item0
    rfl rfl (fun _ => rfl)

/-! ### C4: delete writes the audit entry, then removes the row -/

/-- C4, counterexample.  After the delete of `item0` commits, every audit
row in the committed state carries a NULL item reference: the ORM's
flush-time handling of the nullable, non-cascading foreign key nulls
`item_id` on the item's audit rows — the just-written `DELETE` entry
included — before the item row is removed.  The entry persists, but not
"with its item reference", as the claim states. -/
theorem delete_item_reference_nulled_counterexample :
    (delete_inventory_item st0 actorAdmin 1 happyOracle).state.audits.map
      (fun a => a.item_id) = [none] := rfl

/-- C4 (amended): deleting an existing item writes the audit entry — action
`DELETE`, change payload `deleted_item` = the item's name at time of
deletion, item reference = the item's id — and flushes it before the item
row is removed; after the delete commits, the item row is gone and the audit
entry (action and payload intact) persists, but its item reference — like
that of every other audit row of this item — has been set to NULL by the
ORM's flush-time handling of the nullable, non-cascading foreign key. -/
theorem delete_logs_before_removal (st : DBState) (actor : User)
    (item_id : Nat) (oracle : Nat → Bool) (db_item : InventoryItem)
    (hfind : scalarOneOrNone (st.items.filter (fun i => i.id == item_id)) =
      .ok (some db_item))
    (hok : ∀ n, oracle n = false) :
    delete_inventory_item st actor item_id oracle =
      .ok { st with items := st.items.filter (fun i => i.id ≠ item_id),
                    audits := (st.audits ++
                      [deleteAuditOf st actor item_id db_item.name]).map
                        (nullItemRef item_id),
                    next_audit_id := st.next_audit_id + 1 } ()
    ∧ (deleteAuditOf st actor item_id db_item.name).action = "DELETE"
    ∧ (deleteAuditOf st actor item_id db_item.name).item_id = some item_id
    ∧ (deleteAuditOf st actor item_id db_item.name).changes =
        some (.jObj [("deleted_item", .jStr db_item.name)])
    ∧ (∀ i ∈ (delete_inventory_item st actor item_id oracle).state.items,
        i.id ≠ item_id)
    ∧ nullItemRef item_id (deleteAuditOf st actor item_id db_item.name) ∈
        (delete_inventory_item st actor item_id oracle).state.audits
    ∧ (nullItemRef item_id
        (deleteAuditOf st actor item_id db_item.name)).action = "DELETE"
    ∧ (nullItemRef item_id
        (deleteAuditOf st actor item_id db_item.name)).changes =
        some (.jObj [("deleted_item", .jStr db_item.name)])
    ∧ (nullItemRef item_id
        (deleteAuditOf st actor item_id db_item.name)).item_id = none := by
  have heq : delete_inventory_item st actor item_id oracle =
      .ok { st with items := st.items.filter (fun i => i.id ≠ item_id),
                    audits := (st.audits ++
                      [deleteAuditOf st actor item_id db_item.name]).map
                        (nullItemRef item_id),
                    next_audit_id := st.next_audit_id + 1 } () := by
    simp [delete_inventory_item, hfind, hok 0, hok 1]
  have hnull : nullItemRef item_id
      (deleteAuditOf st actor item_id db_item.name) =
      { deleteAuditOf st actor item_id db_item.name with item_id := none } := by
    unfold nullItemRef
    rw [if_pos (show (deleteAuditOf st actor item_id db_item.name).item_id =
      some item_id from rfl)]
  refine ⟨heq, rfl, rfl, rfl, ?_, ?_, ?_, ?_, ?_⟩
  · intro i hi
    rw [heq] at hi
    simp only [Res.state] at hi
    have := (List.mem_filter.mp hi).2
    simpa using this
  · rw [heq]
    simp only [Res.state]
    rw [List.map_append]
    exact List.mem_append.mpr (Or.inr (List.mem_singleton.mpr rfl))
  · rw [hnull]; rfl
  · rw [hnull]; rfl
  · rw [hnull]

/-- C4 witness: the amended delete theorem applied at a concrete state; the
`DELETE` audit entry persists in the committed state with its item reference
nulled. -/
theorem delete_logs_before_removal_witness :
    nullItemRef 1 (deleteAuditOf st0 actorAdmin 1 item0.name) ∈
      (delete_inventory_item st0 actorAdmin 1 happyOracle).state.audits ∧
    (nullItemRef 1 (deleteAuditOf st0 actorAdmin 1 item0.name)).item_id =
      none :=
  ⟨(delete_logs_before_removal st0 actorAdmin 1 happyOracle item0
      rfl (fun _ => rfl)).2.2.2.2.2.1,
   (delete_logs_before_removal st0 actorAdmin 1 happyOracle item0
      rfl (fun _ => rfl)).2.2.2.2.2.2.2.2⟩

/-! ### C5: SKU uniqueness across create operations -/

/-- No two item rows share a SKU. -/
def uniqueSkus (st : DBState) : Prop :=
  (st.items.map (fun i => i.sku)).Nodup

theorem create_preserves_uniqueSkus (st : DBState) (actor : User)
    (body : InventoryItemCreate) (oracle : Nat → Bool) (hu : uniqueSkus st) :
    uniqueSkus (create_inventory_item st actor body oracle).state := by
  rcases create_cases st actor body oracle with h | ⟨hnil, h⟩
  · rw [h]; exact hu
  · rw [h]
    simp only [Res.state]
    have hfresh := List.filter_eq_nil_iff.mp hnil
    unfold uniqueSkus at hu ⊢
    simp only [List.map_append, List.map_cons, List.map_nil]
    rw [List.nodup_append]
    refine ⟨hu, List.nodup_singleton _, ?_⟩
    intro a ha hb
    rw [List.mem_singleton] at hb
    rcases List.mem_map.mp ha with ⟨i, hi, hia⟩
    exact hfresh i hi (by rw [beq_iff_eq]; rw [← hia] at hb; exact hb)

/-- C5: starting from a state whose SKUs are pairwise distinct, a create
whose SKU is already taken always fails with the duplicate-SKU 400 error and
commits nothing (no item row, no audit entry — the state is unchanged); a
single create preserves SKU uniqueness; and hence any sequence of create
operations preserves it, so at most one item with a given SKU ever exists. -/
theorem create_sku_uniqueness (st : DBState) (actor : User)
    (body : InventoryItemCreate) (oracle : Nat → Bool) :
    (uniqueSkus st → ∀ it ∈ st.items, it.sku = body.sku →
      create_inventory_item st actor body oracle =
        .err 400 ("Item with SKU " ++ body.sku ++ " already exists") st)
    ∧ (uniqueSkus st → uniqueSkus (create_inventory_item st actor body oracle).state)
    ∧ (∀ bodies : List InventoryItemCreate, uniqueSkus st →
        uniqueSkus (bodies.foldl
          (fun s b => (create_inventory_item s actor b oracle).state) st)) := by
  refine ⟨?_, create_preserves_uniqueSkus st actor body oracle, ?_⟩
  · intro hu it hmem hsku
    have hu2 : (st.items.map (fun i => i.sku)).Nodup := hu
    have hfil := filter_key_eq_singleton (fun i => i.sku) st.items hu2 it hmem
      body.sku hsku
    unfold create_inventory_item
    rw [hfil]
    rfl
  · intro bodies
    induction bodies generalizing st with
    | nil => intro hu; exact hu
    | cons b t ih =>
      intro hu
      exact ih _ (create_preserves_uniqueSkus st actor b oracle hu)

/-- A create request re-using the SKU of `item0`. -/
def bodyDup : InventoryItemCreate :=
  { name := "Gadget", sku := "SKU-1", description := none, quantity := 1,
    unit_price := 2, category := none, location := none }

/-- C5 witness: the duplicate-SKU create fails with the 400 error and leaves
the state unchanged, applied at a concrete state. -/
theorem create_sku_uniqueness_witness :
    create_inventory_item st0 actorAdmin bodyDup happyOracle =
      .err 400 ("Item with SKU " ++ bodyDup.sku ++ " already exists") st0 :=
  (create_sku_uniqueness st0 actorAdmin bodyDup happyOracle).1
    (by unfold uniqueSkus; decide) item0 (by simp [st0]) rfl

/-! ### C1: mutation and audit entry commit atomically -/

/-- C1: for create, delete, and non-empty-diff update, the item mutation and
its audit entry are persisted atomically.  Whatever the persistence oracle
does, the committed state is either exactly the entry state (no mutation, no
audit entry — every flush or commit failure, and every pre-check rejection,
rolls back to it) or exactly the entry state extended with **both** the
mutation and its corresponding audit entry; so a mutation is visible in
storage if and only if its audit entry is.  In the delete case the commit
also nulls the item reference of the item's audit rows (`nullItemRef`, the
ORM's flush-time foreign-key handling): the written `DELETE` entry is
committed in that nulled form, together with the row removal. -/
theorem mutation_audit_atomicity (st : DBState) (actor : User)
    (body : InventoryItemCreate) (item_id : Nat) (u : InventoryItemUpdate)
    (oracle : Nat → Bool) :
    ((create_inventory_item st actor body oracle).state = st ∨
      ∃ it a, create_inventory_item st actor body oracle =
        .ok { st with items := st.items ++ [it], audits := st.audits ++ [a],
                      next_item_id := st.next_item_id + 1,
                      next_audit_id := st.next_audit_id + 1 } it ∧
        a.action = "CREATE" ∧ a.item_id = some it.id)
    ∧ (∀ db_item,
        scalarOneOrNone (st.items.filter (fun i => i.id == item_id)) =
          .ok (some db_item) →
        (applyUpdate db_item u).1 ≠ [] →
        ((update_inventory_item st actor item_id u oracle).state = st ∨
          ∃ it a, update_inventory_item st actor item_id u oracle =
            .ok { st with items := pendingItemsOf st item_id it,
                          audits := st.audits ++ [a],
                          next_audit_id := st.next_audit_id + 1 } it ∧
            a.action = "UPDATE" ∧ a.item_id = some item_id ∧
            a.changes = some (.jObj (applyUpdate db_item u).1)))
    ∧ ((delete_inventory_item st actor item_id oracle).state = st ∨
        ∃ a, delete_inventory_item st actor item_id oracle =
          .ok { st with items := st.items.filter (fun i => i.id ≠ item_id),
                        audits := (st.audits ++ [a]).map (nullItemRef item_id),
                        next_audit_id := st.next_audit_id + 1 } () ∧
          a.action = "DELETE" ∧ a.item_id = some item_id) := by
  refine ⟨?_, ?_, ?_⟩
  · rcases create_cases st actor body oracle with h | ⟨hnil, h⟩
    · left; exact h
    · right
      exact ⟨newItemOf st actor body, createAuditOf st actor body, h, rfl, rfl⟩
  · intro db_item hsc hne
    rcases update_cases st actor item_id u oracle with
      h | h | ⟨d2, hsc2, hemp2, h⟩ | ⟨d2, hsc2, hne2, h⟩
    · left; rw [h]; rfl
    · left; rw [h]; rfl
    · left; rw [h]; rfl
    · right
      have hdd : d2 = db_item :=
        Option.some.inj (Except.ok.inj (hsc2.symm.trans hsc))
      subst hdd
      refine ⟨updatedItemOf d2 u st.now,
        updateAuditOf st actor item_id (applyUpdate d2 u).1, h, rfl, rfl, ?_⟩
      show auditChanges (applyUpdate d2 u).1 = some (.jObj (applyUpdate d2 u).1)
      unfold auditChanges
      rw [if_neg (fun hx => hne2 (List.isEmpty_iff.mp hx))]
  · rcases delete_cases st actor item_id oracle with h | h | ⟨d2, hsc2, h⟩
    · left; rw [h]; rfl
    · left; rw [h]; rfl
    · right
      exact ⟨deleteAuditOf st actor item_id d2.name, h, rfl, rfl⟩

/-- An update request that changes `quantity` from 5 to 8. -/
def updQty8 : InventoryItemUpdate :=
  { name := none, sku := none, description := none, quantity := some (some 8),
    unit_price := none, category := none, location := none }

/-- C1 witness: the atomicity theorem applied at a concrete state, its
hypotheses (an existing item and a non-empty diff) discharged by
computation. -/
theorem mutation_audit_atomicity_witness :
    ((update_inventory_item st0 actorAdmin 1 updQty8 happyOracle).state = st0 ∨
      ∃ it a, update_inventory_item st0 actorAdmin 1 updQty8 happyOracle =
        .ok { st0 with items := pendingItemsOf st0 1 it,
                       audits := st0.audits ++ [a],
                       next_audit_id := st0.next_audit_id + 1 } it ∧
        a.action = "UPDATE" ∧ a.item_id = some 1 ∧
        a.changes = some (.jObj (applyUpdate item0 updQty8).1))
    ∧ ((delete_inventory_item st0 actorAdmin 1 happyOracle).state = st0 ∨
        ∃ a, delete_inventory_item st0 actorAdmin 1 happyOracle =
          .ok { st0 with items := st0.items.filter (fun i => i.id ≠ 1),
                         audits := (st0.audits ++ [a]).map (nullItemRef 1),
                         next_audit_id := st0.next_audit_id + 1 } () ∧
          a.action = "DELETE" ∧ a.item_id = some 1) :=
  ⟨(mutation_audit_atomicity st0 actorAdmin bodyDup 1 updQty8 happyOracle).2.1
      item0 rfl
      (by
        rw [show (applyUpdate item0 updQty8).1 =
          [("quantity", diffJson (Val.vInt 5) (Val.vInt 8))] from rfl]
        exact List.cons_ne_nil _ _),
   (mutation_audit_atomicity st0 actorAdmin bodyDup 1 updQty8 happyOracle).2.2⟩

/-! ### C6: role gating of the mutation endpoints -/

/-- C6: access to a mutation endpoint is granted exactly when the actor's
role belongs to the endpoint's allowed set — create and update require
`admin` or `manager`, delete requires `admin`, with no role hierarchy.  A
granted request runs the handler body; a denied one answers 403 Forbidden
with the state untouched.  In particular a viewer is denied all three
operations and a manager is denied delete. -/
theorem role_gating (st : DBState) (actor : User) (body : InventoryItemCreate)
    (item_id : Nat) (u : InventoryItemUpdate) (oracle : Nat → Bool) :
    ((actor.role = .admin ∨ actor.role = .manager) →
      create_endpoint st actor body oracle =
        create_inventory_item st actor body oracle ∧
      update_endpoint st actor item_id u oracle =
        update_inventory_item st actor item_id u oracle)
    ∧ (¬ (actor.role = .admin ∨ actor.role = .manager) →
      create_endpoint st actor body oracle =
        .err 403 "Operation not permitted" st ∧
      update_endpoint st actor item_id u oracle =
        .err 403 "Operation not permitted" st)
    ∧ (actor.role = .admin →
      delete_endpoint st actor item_id oracle =
        delete_inventory_item st actor item_id oracle)
    ∧ (actor.role ≠ .admin →
      delete_endpoint st actor item_id oracle =
        .err 403 "Operation not permitted" st)
    ∧ (actor.role = .viewer →
      create_endpoint st actor body oracle =
        .err 403 "Operation not permitted" st ∧
      update_endpoint st actor item_id u oracle =
        .err 403 "Operation not permitted" st ∧
      delete_endpoint st actor item_id oracle =
        .err 403 "Operation not permitted" st)
    ∧ (actor.role = .manager →
      delete_endpoint st actor item_id oracle =
        .err 403 "Operation not permitted" st) := by
  refine ⟨fun h => ?_, fun h => ?_, fun h => ?_, fun h => ?_, fun h => ?_,
    fun h => ?_⟩
  · rcases h with h | h <;>
      exact ⟨by simp [create_endpoint, require_role, h],
             by simp [update_endpoint, require_role, h]⟩
  · cases hr : actor.role with
    | admin => exact absurd (Or.inl hr) h
    | manager => exact absurd (Or.inr hr) h
    | viewer =>
      exact ⟨by simp [create_endpoint, require_role, hr],
             by simp [update_endpoint, require_role, hr]⟩
  · simp [delete_endpoint, require_role, h]
  · cases hr : actor.role with
    | admin => exact absurd hr h
    | manager => simp [delete_endpoint, require_role, hr]
    | viewer => simp [delete_endpoint, require_role, hr]
  · exact ⟨by simp [create_endpoint, require_role, h],
           by simp [update_endpoint, require_role, h],
           by simp [delete_endpoint, require_role, h]⟩
  · simp [delete_endpoint, require_role, h]

/-- A sample viewer. -/
def actorViewer : User :=
  { id := 3, email := "v@x.com", username := "viewer1", hashed_password := "h",
    full_name := none, role := .viewer, is_active := true }

/-- A sample manager. -/
def actorManager : User :=
  { id := 4, email := "m@x.com", username := "manager1", hashed_password := "h",
    full_name := none, role := .manager, is_active := true }

/-- C6 witness: a viewer is denied create, update, and delete, and a manager
is denied delete, at a concrete state. -/
theorem role_gating_witness :
    (create_endpoint st0 actorViewer bodyDup happyOracle =
        .err 403 "Operation not permitted" st0 ∧
      update_endpoint st0 actorViewer 1 updQty8 happyOracle =
        .err 403 "Operation not permitted" st0 ∧
      delete_endpoint st0 actorViewer 1 happyOracle =
        .err 403 "Operation not permitted" st0)
    ∧ delete_endpoint st0 actorManager 1 happyOracle =
        .err 403 "Operation not permitted" st0 :=
  ⟨(role_gating st0 actorViewer bodyDup 1 updQty8 happyOracle).2.2.2.2.1 rfl,
   (role_gating st0 actorManager bodyDup 1 updQty8 happyOracle).2.2.2.2.2 rfl⟩

/-! ### C7: aggregate statistics -/

/-- The first example item of the claim: quantity 5, unit price 10. -/
def exItemA : InventoryItem :=
  { id := 1, name := "A", sku := "A-1", description := none, quantity := 5,
    unit_price := 10, category := some "c1", location := none,
    created_by := 1, created_at := 0, updated_at := none }

/-- The second example item of the claim: quantity 20, unit price 2. -/
def exItemB : InventoryItem :=
  { id := 2, name := "B", sku := "B-1", description := none, quantity := 20,
    unit_price := 2, category := none, location := none,
    created_by := 1, created_at := 1, updated_at := none }

/-- The example storage state of the claim. -/
def stExample : DBState :=
  { users := [actorAdmin], items := [exItemA, exItemB], audits := [],
    next_user_id := 2, next_item_id := 3, next_audit_id := 1, now := 2 }

/-- C7: the statistics endpoint returns `totalValue` = the sum of
quantity times unit price over all items rounded to two decimals (0 for an
empty store), `lowStockItems` = the number of items with quantity strictly
below 10, and `categoriesCount` = the number of distinct non-null
categories; at the example state with items (qty 5, price 10) and (qty 20,
price 2) it returns totalValue 90 and lowStockItems 1. -/
theorem stats_formulas :
    (∀ st : DBState,
      (get_inventory_stats st).total_value =
        round2 ((st.items.map (fun i => (i.quantity : ℚ) * i.unit_price)).sum) ∧
      (st.items = [] → (get_inventory_stats st).total_value = 0) ∧
      (get_inventory_stats st).low_stock_items =
        st.items.countP (fun i => decide (i.quantity < 10)) ∧
      (get_inventory_stats st).categories_count =
        ((st.items.filterMap (fun i => i.category)).toFinset).card)
    ∧ (get_inventory_stats stExample).total_value = 90
    ∧ (get_inventory_stats stExample).low_stock_items = 1 := by
  refine ⟨fun st => ⟨?_, ?_, ?_, ?_⟩, ?_, ?_⟩
  · unfold get_inventory_stats
    rw [List.sum_eq_foldl, List.foldl_map]
  · intro h
    unfold get_inventory_stats
    rw [h]
    have h0 : ((0 : ℤ) : ℚ) = (0 : ℚ) := by norm_num
    simp only [List.foldl_nil]
    rw [← h0, round2_intCast, h0]
  · rw [List.countP_eq_length_filter]
    rfl
  · rw [List.card_toFinset]
    rfl
  · have hsum : stExample.items.foldl
        (fun acc i => acc + (i.quantity : ℚ) * i.unit_price) 0 = 90 := by
      simp [stExample, exItemA, exItemB]
      norm_num
    unfold get_inventory_stats
    rw [hsum]
    have h90 : ((90 : ℤ) : ℚ) = (90 : ℚ) := by norm_num
    rw [← h90, round2_intCast, h90]
  · rfl

/-- C7 witness: the statistics theorem applied at the empty state, where the
total value is 0. -/
theorem stats_formulas_witness :
    (get_inventory_stats stEmpty).total_value = 0 :=
  (stats_formulas.1 stEmpty).2.1 rfl

/-! ### C9: registration with email and username matching different users -/

/-- C9: when the email of a registration request matches one stored user and
its username matches a different stored user, the single-row lookup
(`scalar_one_or_none`) raises `MultipleResultsFound`: the request ends in
the generic 500 failure with the state unchanged, and neither documented
duplicate-400 response ("Email already registered" / "Username already
taken") is returned. -/
theorem register_cross_duplicate (st : DBState) (body : UserCreate)
    (hash : String → String) (oracle : Nat → Bool) (u1 u2 : User)
    (h1 : u1 ∈ st.users) (h2 : u2 ∈ st.users) (hne : u1 ≠ u2)
    (he : u1.email = body.email) (hu : u2.username = body.username) :
    register st body hash oracle = .fail st ∧
    ∀ (c : Nat) (d : String) (st2 : DBState),
      register st body hash oracle ≠ .err c d st2 := by
  have hm1 : u1 ∈ st.users.filter
      (fun x => x.email == body.email || x.username == body.username) :=
    List.mem_filter.mpr ⟨h1, by simp [he]⟩
  have hm2 : u2 ∈ st.users.filter
      (fun x => x.email == body.email || x.username == body.username) :=
    List.mem_filter.mpr ⟨h2, by simp [hu]⟩
  have hsc := scalarOneOrNone_error_of_two (two_le_length_of_mem_ne hm1 hm2 hne)
  have hmain : register st body hash oracle = .fail st := by
    simp [register, hsc]
  exact ⟨hmain, fun c d st2 hcon => by rw [hmain] at hcon; cases hcon⟩

/-- Two stored users for the cross-duplicate registration scenario. -/
def userAlice : User :=
  { id := 1, email := "alice@x.com", username := "alice",
    hashed_password := "h", full_name := none, role := .viewer,
    is_active := true }

def userBob : User :=
  { id := 2, email := "bob@x.com", username := "bob", hashed_password := "h",
    full_name := none, role := .viewer, is_active := true }

def stTwoUsers : DBState :=
  { users := [userAlice, userBob], items := [], audits := [],
    next_user_id := 3, next_item_id := 1, next_audit_id := 1, now := 0 }

/-- A registration request whose email matches `userAlice` and whose
username matches `userBob`. -/
def bodyCrossDup : UserCreate :=
  { email := "alice@x.com", username := "bob", full_name := none,
    role := .viewer, password := "longenough" }

/-- C9 witness: the cross-duplicate registration theorem applied at a
concrete two-user state. -/
theorem register_cross_duplicate_witness :
    register stTwoUsers bodyCrossDup (fun s => s) happyOracle =
      .fail stTwoUsers :=
  (register_cross_duplicate stTwoUsers bodyCrossDup (fun s => s) happyOracle
    userAlice userBob (by simp [stTwoUsers]) (by simp [stTwoUsers])
    (by decide) rfl rfl).1

/-! ### C10: the update path has no SKU-uniqueness pre-check -/

/-- A second item whose SKU collides with the value `updSkuConflict` writes. -/
def itemB : InventoryItem :=
  { id := 2, name := "Bolt", sku := "SKU-2", description := none,
    quantity := 3, unit_price := 1, category := none, location := none,
    created_by := 1, created_at := 1, updated_at := none }

/-- A state with two items of distinct SKUs. -/
def stTwoItems : DBState :=
  { users := [actorAdmin], items := [item0, itemB], audits := [],
    next_user_id := 2, next_item_id := 3, next_audit_id := 1, now := 9 }

/-- An update request that rewrites the SKU to the SKU of `itemB`. -/
def updSkuConflict : InventoryItemUpdate :=
  { name := none, sku := some (some "SKU-2"), description := none,
    quantity := none, unit_price := none, category := none, location := none }

/-- C10: the update handler raises no duplicate-SKU `HTTPException` — the
only client error it can produce is the 404 for a missing item (with the
state unchanged).  In particular, updating an existing item's SKU to the SKU
of another existing item is not rejected by the handler's own checks; in the
model it dies on the database uniqueness constraint at flush time (a generic
500 failure), not with the create path's duplicate-SKU 400 error. -/
theorem update_has_no_duplicate_sku_error :
    (∀ (st : DBState) (actor : User) (item_id : Nat) (u : InventoryItemUpdate)
      (oracle : Nat → Bool) (c : Nat) (d : String) (st2 : DBState),
      update_inventory_item st actor item_id u oracle = .err c d st2 →
      c = 404 ∧ d = "Inventory item not found" ∧ st2 = st)
    ∧ update_inventory_item stTwoItems actorAdmin 1 updSkuConflict
        happyOracle = .fail stTwoItems := by
  constructor
  · intro st actor item_id u oracle c d st2 heq
    rcases update_cases st actor item_id u oracle with
      h | h | ⟨d2, h2, h3, h⟩ | ⟨d2, h2, h3, h⟩
    · rw [h] at heq; exact Res.noConfusion heq
    · rw [h] at heq
      injection heq with hc hd hst
      exact ⟨hc.symm, hd.symm, hst.symm⟩
    · rw [h] at heq; exact Res.noConfusion heq
    · rw [h] at heq; exact Res.noConfusion heq
  · rfl

/-- C10 witness: the only-404 characterization applied at a concrete input
(a missing item id). -/
theorem update_has_no_duplicate_sku_error_witness :
    (404 : Nat) = 404 ∧ "Inventory item not found" = "Inventory item not found"
      ∧ stEmpty = stEmpty :=
  update_has_no_duplicate_sku_error.1 stEmpty actorAdmin 1 updSkuConflict
    happyOracle 404 "Inventory item not found" stEmpty rfl

/-! ### C8: pagination parameters are validated, not clamped -/

/-- C8 counterexample: a request with `limit = 0` is rejected with a 422
validation error — it does not succeed with an effective page size of 1, so
the limit is not clamped into `[1, 1000]`. -/
theorem list_items_limit_zero_rejected :
    get_inventory_items stEmpty 0 0 none none =
      .err 422 "validation error" stEmpty := rfl

theorem searchFilter_subset (items : List InventoryItem)
    (search : Option String) : ∀ x ∈ searchFilter items search, x ∈ items := by
  intro x hx
  rcases search with _ | s
  · exact hx
  · simp only [searchFilter] at hx
    by_cases hs : s = ""
    · rw [if_pos hs] at hx; exact hx
    · rw [if_neg hs] at hx; exact (List.filter_sublist _).subset hx

theorem categoryFilter_subset (items : List InventoryItem)
    (category : Option String) :
    ∀ x ∈ categoryFilter items category, x ∈ items := by
  intro x hx
  rcases category with _ | c
  · exact hx
  · simp only [categoryFilter] at hx
    by_cases hc : c = ""
    · rw [if_pos hc] at hx; exact hx
    · rw [if_neg hc] at hx; exact (List.filter_sublist _).subset hx

/-- C8 (amended): the supplied `limit` (and `skip`) are validated rather
than clamped — a request with `limit` in `[1, 1000]` and `skip ≥ 0` succeeds
and returns exactly the filtered rows arranged in an order that is
descending by creation time, with the first `skip` results omitted and at
most `limit` of them taken; a request with `limit` outside `[1, 1000]` or
`skip < 0` is rejected with a 422 validation error and the state
unchanged. -/
theorem list_items_validates_and_orders (st : DBState) (skip limit : Int)
    (search category : Option String) :
    (0 ≤ skip → 1 ≤ limit → limit ≤ 1000 →
      ∃ rows l,
        get_inventory_items st skip limit search category = .ok st l ∧
        rows.Perm (categoryFilter (searchFilter st.items search) category) ∧
        List.Sorted createdDesc rows ∧
        l = (rows.drop skip.toNat).take limit.toNat ∧
        List.Sorted createdDesc l ∧ l.length ≤ limit.toNat ∧
        ∀ x ∈ l, x ∈ st.items)
    ∧ (¬ (0 ≤ skip ∧ 1 ≤ limit ∧ limit ≤ 1000) →
      get_inventory_items st skip limit search category =
        .err 422 "validation error" st) := by
  constructor
  · intro h1 h2 h3
    refine ⟨(categoryFilter (searchFilter st.items search)
        category).insertionSort createdDesc,
      (((categoryFilter (searchFilter st.items search)
        category).insertionSort createdDesc).drop skip.toNat).take limit.toNat,
      ?_, ?_, ?_, rfl, ?_, ?_, ?_⟩
    · unfold get_inventory_items
      rw [if_pos ⟨h1, h2, h3⟩]
    · exact List.perm_insertionSort createdDesc _
    · exact List.sorted_insertionSort createdDesc
        (categoryFilter (searchFilter st.items search) category)
    · exact List.Pairwise.sublist
        ((List.take_sublist _ _).trans (List.drop_sublist _ _))
        (List.sorted_insertionSort createdDesc
          (categoryFilter (searchFilter st.items search) category))
    · rw [List.length_take]
      exact min_le_left _ _
    · intro x hx
      have hx2 : x ∈ (categoryFilter (searchFilter st.items search)
          category).insertionSort createdDesc :=
        ((List.take_sublist _ _).trans (List.drop_sublist _ _)).subset hx
      have hx3 := (List.perm_insertionSort createdDesc _).mem_iff.mp hx2
      exact searchFilter_subset st.items search x
        (categoryFilter_subset _ category x hx3)
  · intro h
    unfold get_inventory_items
    rw [if_neg h]

/-- C8 witness: the amended listing theorem applied at a concrete valid
request. -/
theorem list_items_validates_and_orders_witness :
    ∃ rows l, get_inventory_items st0 0 100 none none = .ok st0 l ∧
      rows.Perm (categoryFilter (searchFilter st0.items none) none) ∧
      List.Sorted createdDesc rows ∧
      l = (rows.drop (0 : Int).toNat).take (100 : Int).toNat ∧
      List.Sorted createdDesc l ∧ l.length ≤ (100 : Int).toNat ∧
      ∀ x ∈ l, x ∈ st0.items :=
  (list_items_validates_and_orders st0 0 100 none none).1
    (by decide) (by decide) (by decide)

end Inventory
